import Mathlib

/-!
Shallow embedding of the `vault-transform-with-big-query` relay (src/main.py
and src/deploy/cloud-function/main.py).

The relay forwards credit-card strings to the Vault Transform engine and
exposes the BigQuery remote-function request/response shape.  JSON values are
modelled by the inductive `Json` below (JSON numbers are modelled as integers;
floating-point literals are outside the model).  A Python `dict` obtained by
parsing JSON is modelled as its association list (`Json.obj`).  Python
exceptions inside a handler's `try` block are modelled by `Except Unit`;
`.error ()` means "an exception was raised", which the surrounding
`except Exception` clause turns into a 500 response.

The outbound call to Vault is abstracted as a function
`backend : String → VaultOutcome`: `VaultOutcome.exn` models a raised
`requests` exception (network error), `VaultOutcome.resp r` models an HTTP
response with `r.status` and, when `r.body = some j`, a body that
`response.json()` parses to `j` (`none` models a body on which `.json()`
raises).
-/

namespace VaultTransform

/-- JSON values as parsed into Python objects by `request.get_json` /
`response.json()`.  Numbers are modelled as integers. -/
inductive Json where
  | null : Json
  | bool (b : Bool) : Json
  | num (n : Int) : Json
  | str (s : String) : Json
  | arr (elems : List Json) : Json
  | obj (fields : List (String × Json)) : Json
deriving Repr

/-- Python truthiness (`bool(x)`) of a parsed JSON value: `None`, `False`,
`0`, `""`, `[]` and `{}` are falsy, everything else is truthy. -/
def truthy : Json → Bool
  | .null => false
  | .bool b => b
  | .num n => n != 0
  | .str s => s != ""
  | .arr [] => false
  | .arr (_ :: _) => true
  | .obj [] => false
  | .obj (_ :: _) => true

/-- Key lookup in a parsed JSON object (a Python `dict`, whose keys are
unique after parsing). -/
def lookupField : List (String × Json) → String → Option Json
  | [], _ => none
  | (k, v) :: rest, key => if Decidable.decide (k = key) then some v else lookupField rest key

/-- Whether a list of characters starts with the pattern. -/
def charsStartWith : List Char → List Char → Bool
  | [], _ => true
  | _ :: _, [] => false
  | a :: as, b :: bs => a == b && charsStartWith as bs

/-- Whether the pattern occurs inside the list of characters. -/
def charsContain (pat : List Char) : List Char → Bool
  | [] => pat.isEmpty
  | b :: bs => charsStartWith pat (b :: bs) || charsContain pat bs

/-- Python's `pat in s` on strings: substring containment. -/
def strContains (s pat : String) : Bool :=
  charsContain pat.data s.data

/-- Python's `key in x` for a parsed JSON value `x`: key membership for a
dict, element equality for a list, substring test for a string; for `None`,
booleans and numbers `in` raises `TypeError`. -/
def pyContains (j : Json) (key : String) : Except Unit Bool :=
  match j with
  | .obj fs => .ok (lookupField fs key).isSome
  | .arr es => .ok (es.any fun e =>
      match e with
      | .str s => Decidable.decide (s = key)
      | _ => false)
  | .str s => .ok (strContains s key)
  | _ => .error ()

/-- Python's `x[key]` for a string key: dict lookup (`KeyError` when the key
is absent); on every other parsed JSON value a string subscript raises. -/
def pyGetItem (j : Json) (key : String) : Except Unit Json :=
  match j with
  | .obj fs =>
    match lookupField fs key with
    | some v => .ok v
    | none => .error ()
  | _ => .error ()

/-- Python's `len(x)`: defined for strings, lists and dicts; raises
`TypeError` otherwise. -/
def pyLen : Json → Except Unit Nat
  | .str s => .ok s.length
  | .arr es => .ok es.length
  | .obj fs => .ok fs.length
  | _ => .error ()

/-- Python's `x[0]`: first element of a list, first character of a string
(`IndexError` when empty); a dict parsed from JSON has only string keys, so
`x[0]` raises `KeyError`; `None`, booleans and numbers are not subscriptable. -/
def pyIndexZero : Json → Except Unit Json
  | .arr [] => .error ()
  | .arr (e :: _) => .ok e
  | .str s =>
    match s.data with
    | [] => .error ()
    | c :: _ => .ok (.str (String.mk [c]))
  | _ => .error ()

/-- Python's `for x in j`: the elements of a list, the one-character strings
of a string, the keys of a dict; iterating `None`, a boolean or a number
raises `TypeError`. -/
def pyIter : Json → Except Unit (List Json)
  | .arr es => .ok es
  | .str s => .ok (s.data.map fun c => .str (String.mk [c]))
  | .obj fs => .ok (fs.map fun kv => .str kv.1)
  | _ => .error ()

def singleQuote : Char := Char.ofNat 39

def doubleQuote : Char := Char.ofNat 34

def hexDigit (n : Nat) : Char :=
  if n < 10 then Char.ofNat (48 + n) else Char.ofNat (87 + n)

/-- CPython `repr` escaping of one character inside a string literal rendered
with the given quote character. -/
def reprEscapeChar (quote : Char) (c : Char) : String :=
  if c = '\\' then "\\\\"
  else if c = quote then "\\" ++ String.mk [quote]
  else if c = '\n' then "\\n"
  else if c = '\r' then "\\r"
  else if c = '\t' then "\\t"
  else if c.toNat < 32 || c.toNat == 127 then
    "\\x" ++ String.mk [hexDigit (c.toNat / 16), hexDigit (c.toNat % 16)]
  else String.mk [c]

/-- CPython `repr` of a `str`: single quotes by default, double quotes when
the string contains a single quote but no double quote. -/
def pyReprStr (s : String) : String :=
  let q := if s.data.contains singleQuote && !s.data.contains doubleQuote
           then doubleQuote else singleQuote
  String.mk [q] ++ String.join (s.data.map (reprEscapeChar q)) ++ String.mk [q]

def commaJoin : List String → String
  | [] => ""
  | [x] => x
  | x :: rest => x ++ ", " ++ commaJoin rest

mutual

/-- Python's `repr` of a parsed JSON value. -/
def pyRepr : Json → String
  | .null => "None"
  | .bool true => "True"
  | .bool false => "False"
  | .num n => toString n
  | .str s => pyReprStr s
  | .arr es => "[" ++ commaJoin (pyReprList es) ++ "]"
  | .obj fs => "\x7b" ++ commaJoin (pyReprFields fs) ++ "\x7d"

def pyReprList : List Json → List String
  | [] => []
  | e :: rest => pyRepr e :: pyReprList rest

def pyReprFields : List (String × Json) → List String
  | [] => []
  | (k, v) :: rest => (pyReprStr k ++ ": " ++ pyRepr v) :: pyReprFields rest

end

/-- Python's `str(x)` on a parsed JSON value: the identity on strings, the
`repr` rendering on everything else (`str(None) = "None"`, `str(True) =
"True"`, `str(4) = "4"`, ...). -/
def pyStr : Json → String
  | .str s => s
  | j => pyRepr j

/-- An HTTP response from Vault as seen by the client: the status code and,
when `body = some j`, the value `response.json()` parses to; `body = none`
models a body on which `response.json()` raises. -/
structure VaultResponse where
  status : Nat
  body : Option Json

/-- The outcome of one `requests.post` call to Vault: either a raised
exception (network error, timeout, ...) or a response. -/
inductive VaultOutcome where
  | exn : VaultOutcome
  | resp (r : VaultResponse) : VaultOutcome

/-- Shared body of `VaultTransformClient.encrypt` / `.decrypt`
(src/main.py:46-68 and 80-102): inside `try`, on a 200 response return
`result.get('data', {}).get(key)` (a Python `dict.get` returns `None` for a
missing key, and JSON `null` parses to `None`; `.get` on a non-dict raises
`AttributeError`, which the `except` clause turns into `None`); on a non-200
status or any raised exception return `None`. -/
def extractTransformField (key : String) : VaultOutcome → Option Json
  | .exn => none
  | .resp r =>
    if r.status = 200 then
      match r.body with
      | none => none
      | some (.obj fs) =>
        match (lookupField fs "data").getD (.obj []) with
        | .obj ds =>
          match lookupField ds key with
          | some .null => none
          | some v => some v
          | none => none
        | _ => none
      | some _ => none
    else none

/-- `VaultTransformClient.encrypt` (src/main.py:36-68), abstracted over the
outcome of the single POST to `{vault_url}/v1/transform/encode/{role}`.
`none` is Python `None`, the failure marker. -/
def VaultTransformClient.encrypt (backend : String → VaultOutcome)
    (plaintext : String) : Option Json :=
  extractTransformField "encoded_value" (backend plaintext)

/-- `VaultTransformClient.decrypt` (src/main.py:70-102), abstracted over the
outcome of the single POST to `{vault_url}/v1/transform/decode/{role}`. -/
def VaultTransformClient.decrypt (backend : String → VaultOutcome)
    (ciphertext : String) : Option Json :=
  extractTransformField "decoded_value" (backend ciphertext)

/-- An HTTP response of the relay: status code and JSON body. -/
def HandlerResponse := Nat × Json

def errorBody (msg : String) : Json := .obj [("error", .str msg)]

/-- One iteration of the `for call in calls` loop (src/main.py:132-145 and
182-195): a falsy or empty `call` appends `None`; otherwise `call[0]` is
taken, a falsy first element appends `None`, and otherwise the Vault client
is invoked on `str(call[0])` and its result (possibly `None`) is appended.
`oracle` is the bound client method; `.error ()` is a raised exception
(e.g. `len` or `[0]` on an unsuitable value), which aborts the whole
request. -/
def itemReply (oracle : String → Option Json) (call : Json) : Except Unit Json :=
  if !truthy call then .ok .null
  else
    match pyLen call with
    | .error e => .error e
    | .ok n =>
      if n = 0 then .ok .null
      else
        match pyIndexZero call with
        | .error e => .error e
        | .ok v =>
          if !truthy v then .ok .null
          else .ok ((oracle (pyStr v)).getD .null)

/-- Sequential per-item processing: the first raised exception aborts the
loop (and hence the request). -/
def mapExcept (f : α → Except Unit β) : List α → Except Unit (List β)
  | [] => .ok []
  | a :: as =>
    match f a with
    | .error e => .error e
    | .ok b =>
      match mapExcept f as with
      | .error e => .error e
      | .ok bs => .ok (b :: bs)

/-- The `for call in calls` loop over `calls = request_data['calls']`
(which need not be a list: iterating a non-iterable raises). -/
def processCalls (oracle : String → Option Json) (calls : Json) :
    Except Unit (List Json) :=
  match pyIter calls with
  | .error e => .error e
  | .ok items => mapExcept (itemReply oracle) items

/-- The common body of the `/encrypt` and `/decrypt` handlers once
`request.get_json()` has produced a parsed value (src/main.py:126-155):
a falsy body or `'calls' not in request_data` gives 400; any exception
raised while evaluating `'calls' in request_data`, `request_data['calls']`
or the loop is caught by the handler's `except Exception` and gives 500;
otherwise 200 with `{"replies": [...]}`. -/
def handleParsed (oracle : String → Option Json) (requestData : Json) :
    Nat × Json :=
  if !truthy requestData then (400, errorBody "Invalid request format")
  else
    match pyContains requestData "calls" with
    | .error _ => (500, errorBody "Internal server error")
    | .ok false => (400, errorBody "Invalid request format")
    | .ok true =>
      match pyGetItem requestData "calls" with
      | .error _ => (500, errorBody "Internal server error")
      | .ok calls =>
        match processCalls oracle calls with
        | .error _ => (500, errorBody "Internal server error")
        | .ok replies => (200, .obj [("replies", .arr replies)])

/-- The Flask `/encrypt` handler `encrypt_credit_card` (src/main.py:107-155).
`body` is the outcome of `request.get_json()`: `.error ()` when parsing the
request body raises (invalid JSON with a JSON content type raises
`BadRequest`, which the handler's own `except Exception` turns into a 500),
`.ok rd` when it returns the parsed value `rd`.  `encryptOracle` is the bound
`vault_client.encrypt`. -/
def encrypt_credit_card (encryptOracle : String → Option Json)
    (body : Except Unit Json) : Nat × Json :=
  match body with
  | .error _ => (500, errorBody "Internal server error")
  | .ok rd => handleParsed encryptOracle rd

/-- The Flask `/decrypt` handler `decrypt_credit_card`
(src/main.py:157-205); identical to `/encrypt` except that it invokes
`vault_client.decrypt`. -/
def decrypt_credit_card (decryptOracle : String → Option Json)
    (body : Except Unit Json) : Nat × Json :=
  match body with
  | .error _ => (500, errorBody "Internal server error")
  | .ok rd => handleParsed decryptOracle rd

/-- The Cloud Function `encrypt_credit_card`
(src/deploy/cloud-function/main.py:104-151): it parses with
`request.get_json(silent=True)`, so an unparsable body yields `None`
(falsy, hence 400) instead of raising. -/
def cfEncryptCreditCard (encryptOracle : String → Option Json)
    (body : Option Json) : Nat × Json :=
  handleParsed encryptOracle (body.getD .null)

/-- The Cloud Function `decrypt_credit_card`
(src/deploy/cloud-function/main.py:153-200). -/
def cfDecryptCreditCard (decryptOracle : String → Option Json)
    (body : Option Json) : Nat × Json :=
  handleParsed decryptOracle (body.getD .null)

/-- The Cloud Function `health_check`
(src/deploy/cloud-function/main.py:202-204). -/
def cfHealthCheck : Nat × Json :=
  (200, .obj [("status", .str "healthy")])

/-- The Cloud Function entry point `vault_transform_bigquery`
(src/deploy/cloud-function/main.py:206-229): substring routing on the
request path, checked in the order `/encrypt`, `/decrypt`, `/health`, with
encrypt as the default for every other path. -/
def vault_transform_bigquery (encOracle decOracle : String → Option Json)
    (path : String) (body : Option Json) : Nat × Json :=
  if strContains path "/encrypt" then cfEncryptCreditCard encOracle body
  else if strContains path "/decrypt" then cfDecryptCreditCard decOracle body
  else if strContains path "/health" then cfHealthCheck
  else cfEncryptCreditCard encOracle body

/-- The process environment: `os.environ.get` returns `none` for an unset
variable. -/
structure PyEnv where
  get : String → Option String

/-- The configuration fields `VaultTransformClient.__init__` stores. -/
structure VaultConfig where
  vault_url : String
  vault_token : String
  vault_namespace : String
  transform_role : String

/-- `VaultTransformClient.__init__` (src/main.py:17-24): reads the
environment, and raises `ValueError` when `VAULT_TOKEN` is unset or empty
(`if not self.vault_token`).  The module-level `vault_client =
VaultTransformClient()` (src/main.py:105) runs this at import time, so the
error aborts startup before any route is registered; no network call is
made, so construction succeeds whenever the token is a non-empty string. -/
def VaultTransformClient.init (env : PyEnv) : Except String VaultConfig :=
  let tok := (env.get "VAULT_TOKEN").getD ""
  if tok = "" then .error "VAULT_TOKEN environment variable is required"
  else .ok
    { vault_url := (env.get "VAULT_URL").getD "https://vault.example.com"
      vault_token := tok
      vault_namespace := (env.get "VAULT_NAMESPACE").getD ""
      transform_role := (env.get "VAULT_TRANSFORM_ROLE").getD "creditcard-transform" }

/-- A request body in the documented BigQuery shape: `calls` is a list of
one-element lists of strings. -/
def mkCallsBody (ss : List String) : Json :=
  .obj [("calls", .arr (ss.map fun s => .arr [.str s]))]

/-- The per-item reply when the call entry is a JSON array (the protocol
shape): `null` for an empty array or a falsy first element, otherwise the
oracle's answer on `str(first)` with `None` rendered as `null`. -/
def replyOf (oracle : String → Option Json) : Json → Json
  | .arr [] => .null
  | .arr (v :: _) => if !truthy v then .null else (oracle (pyStr v)).getD .null
  | _ => .null

/-- A stub Transform encode backend answering 200 with
`{"data": {"encoded_value": enc s}}`. -/
def stubEncodeBackend (enc : String → String) : String → VaultOutcome :=
  fun s => .resp ⟨200, some (.obj [("data", .obj [("encoded_value", .str (enc s))])])⟩

/-- A stub Transform decode backend answering 200 with
`{"data": {"decoded_value": dec s}}`. -/
def stubDecodeBackend (dec : String → String) : String → VaultOutcome :=
  fun s => .resp ⟨200, some (.obj [("data", .obj [("decoded_value", .str (dec s))])])⟩

/-- The stub oracle of the spec's worked example: `X -> "ENC(" + X + ")"`. -/
def encStubOracle : String → Option Json :=
  fun s => some (.str ("ENC(" ++ s ++ ")"))

/-- A backend that fails (HTTP 500, unparsable body) on the input "B" and
answers 200 with `{"data": {"encoded_value": "E" + s}}` on every other
input. -/
def oneFailureBackend : String → VaultOutcome :=
  fun s =>
    if s = "B" then .resp ⟨500, none⟩
    else .resp ⟨200, some (.obj [("data", .obj [("encoded_value", .str ("E" ++ s))])])⟩

/-- An environment in which only `VAULT_TOKEN` is set. -/
def envTokenOnly : PyEnv :=
  ⟨fun k => if k = "VAULT_TOKEN" then some "s.abc123" else none⟩

/-- An environment with no variables set. -/
def envEmpty : PyEnv := ⟨fun _ => none⟩

/-! ### Helper lemmas -/

lemma truthy_arr_cons (v : Json) (rest : List Json) :
    truthy (.arr (v :: rest)) = true := rfl

lemma itemReply_arr (o : String → Option Json) (xs : List Json) :
    itemReply o (.arr xs) = .ok (replyOf o (.arr xs)) := by
  cases xs with
  | nil => rfl
  | cons v rest =>
    cases htv : truthy v <;>
      simp [itemReply, replyOf, pyLen, pyIndexZero, truthy_arr_cons, htv]

lemma mapExcept_ok (f : α → Except Unit β) (g : α → β) :
    ∀ l : List α, (∀ a ∈ l, f a = .ok (g a)) → mapExcept f l = .ok (l.map g) := by
  intro l
  induction l with
  | nil => intro _; rfl
  | cons a as ih =>
    intro h
    have ha := h a (List.mem_cons_self a as)
    have has := ih fun x hx => h x (List.mem_cons_of_mem a hx)
    simp [mapExcept, ha, has]

lemma processCalls_arrays (o : String → Option Json) (cs : List Json)
    (h : ∀ c ∈ cs, ∃ xs, c = .arr xs) :
    processCalls o (.arr cs) = .ok (cs.map (replyOf o)) := by
  have : mapExcept (itemReply o) cs = .ok (cs.map (replyOf o)) := by
    apply mapExcept_ok
    intro c hc
    obtain ⟨xs, rfl⟩ := h c hc
    exact itemReply_arr o xs
  simpa [processCalls, pyIter] using this

lemma truthy_obj_of_lookup (fs : List (String × Json)) (k : String) (v : Json)
    (h : lookupField fs k = some v) : truthy (.obj fs) = true := by
  cases fs with
  | nil => simp [lookupField] at h
  | cons p rest => rfl

lemma handleParsed_obj_calls (o : String → Option Json)
    (fs : List (String × Json)) (c : Json)
    (h : lookupField fs "calls" = some c) :
    handleParsed o (.obj fs) =
      match processCalls o c with
      | .error _ => (500, errorBody "Internal server error")
      | .ok replies => (200, Json.obj [("replies", .arr replies)]) := by
  have ht := truthy_obj_of_lookup fs "calls" c h
  simp [handleParsed, ht, pyContains, pyGetItem, h]

lemma handleParsed_batch (o : String → Option Json)
    (fs : List (String × Json)) (cs : List Json)
    (h : lookupField fs "calls" = some (.arr cs))
    (harr : ∀ c ∈ cs, ∃ xs, c = .arr xs) :
    handleParsed o (.obj fs) =
      (200, Json.obj [("replies", .arr (cs.map (replyOf o)))]) := by
  rw [handleParsed_obj_calls o fs (.arr cs) h, processCalls_arrays o cs harr]

lemma getD_map_lt {α β : Type} (g : α → β) (d : α) (e : β) :
    ∀ (l : List α) (i : Nat), i < l.length →
      (l.map g).getD i e = g (l.getD i d) := by
  intro l
  induction l with
  | nil => intro i hi; simp at hi
  | cons a as ih =>
    intro i hi
    cases i with
    | zero => rfl
    | succ j =>
      have hj : j < as.length := by simpa using hi
      simpa using ih j hj

lemma truthy_obj_cons (p : String × Json) (rest : List (String × Json)) :
    truthy (.obj (p :: rest)) = true := rfl

lemma handleParsed_not_truthy (o : String → Option Json) (rd : Json)
    (h : truthy rd = false) :
    handleParsed o rd = (400, errorBody "Invalid request format") := by
  simp [handleParsed, h]

lemma handleParsed_no_calls (o : String → Option Json)
    (fs : List (String × Json)) (h : lookupField fs "calls" = none) :
    handleParsed o (.obj fs) = (400, errorBody "Invalid request format") := by
  cases fs with
  | nil => rfl
  | cons p rest => simp [handleParsed, truthy_obj_cons, pyContains, h]

lemma extract_200_ok (key : String) (fs ds : List (String × Json)) (v : Json)
    (h1 : lookupField fs "data" = some (.obj ds))
    (h2 : lookupField ds key = some v) (h3 : v ≠ .null) :
    extractTransformField key (.resp ⟨200, some (.obj fs)⟩) = some v := by
  cases v <;> simp_all [extractTransformField, h1, h2]

lemma extract_200_missing_field (key : String) (fs ds : List (String × Json))
    (h1 : lookupField fs "data" = some (.obj ds))
    (h2 : lookupField ds key = none) :
    extractTransformField key (.resp ⟨200, some (.obj fs)⟩) = none := by
  simp [extractTransformField, h1, h2]

lemma extract_200_missing_data (key : String) (fs : List (String × Json))
    (h1 : lookupField fs "data" = none) :
    extractTransformField key (.resp ⟨200, some (.obj fs)⟩) = none := by
  simp [extractTransformField, h1, lookupField]

lemma mkCallsBody_lookup (ss : List String) :
    lookupField [("calls", Json.arr (ss.map fun s => .arr [.str s]))] "calls"
      = some (.arr (ss.map fun s => .arr [.str s])) := rfl

lemma replyOf_single_str (o : String → Option Json) (s : String) (hs : s ≠ "") :
    replyOf o (.arr [.str s]) = (o s).getD .null := by
  simp [replyOf, truthy, pyStr, hs]

lemma handler_on_string_batch (o : String → Option Json) (ss : List String)
    (hss : ∀ s ∈ ss, s ≠ "") :
    handleParsed o (mkCallsBody ss) =
      (200, Json.obj [("replies", .arr (ss.map fun s => (o s).getD .null))]) := by
  have h := handleParsed_batch o
      [("calls", Json.arr (ss.map fun s => .arr [.str s]))]
      (ss.map fun s => .arr [.str s]) (mkCallsBody_lookup ss)
      (by intro c hc
          obtain ⟨s, _, rfl⟩ := List.mem_map.mp hc
          exact ⟨[.str s], rfl⟩)
  rw [mkCallsBody, h]
  have : (ss.map fun s => Json.arr [.str s]).map (replyOf o)
        = ss.map fun s => (o s).getD .null := by
    rw [List.map_map]
    apply List.map_congr_left
    intro s hs
    exact replyOf_single_str o s (hss s hs)
  rw [this]

lemma extract_non200 (key : String) (r : VaultResponse) (h : r.status ≠ 200) :
    extractTransformField key (.resp r) = none := by
  simp [extractTransformField, h]

/-! ### Claims -/

/-- C1 (amended): for every request body whose `calls` value is a list of
JSON arrays (the BigQuery protocol shape), the `/encrypt` and `/decrypt`
handlers return a `replies` list of the same length, and the reply at
position `i` is `replyOf oracle` of the call at position `i` alone — order
preserved, for every oracle, so independent of how many individual Vault
calls fail.  (The original claim quantified over arbitrary `calls` lists;
see the counterexample for an element on which the loop raises and the
handler returns 500 instead.) -/
theorem c1_batch_length_order (o : String → Option Json)
    (fs : List (String × Json)) (cs : List Json)
    (h : lookupField fs "calls" = some (.arr cs))
    (harr : ∀ c ∈ cs, ∃ xs, c = .arr xs) :
    encrypt_credit_card o (.ok (.obj fs))
        = (200, Json.obj [("replies", .arr (cs.map (replyOf o)))]) ∧
    decrypt_credit_card o (.ok (.obj fs))
        = (200, Json.obj [("replies", .arr (cs.map (replyOf o)))]) ∧
    (cs.map (replyOf o)).length = cs.length ∧
    ∀ i, i < cs.length →
      (cs.map (replyOf o)).getD i .null = replyOf o (cs.getD i .null) := by
  refine ⟨?_, ?_, List.length_map cs (replyOf o), ?_⟩
  · exact handleParsed_batch o fs cs h harr
  · exact handleParsed_batch o fs cs h harr
  · intro i hi
    exact getD_map_lt (replyOf o) .null .null cs i hi

/-- C1, counterexample to the unrestricted claim: the body
`{"calls": [5]}` contains a `calls` list, but the loop evaluates `len(5)`,
which raises `TypeError`; the handler answers 500 with an error object and
returns no `replies` list at all. -/
theorem c1_claim_counterexample :
    encrypt_credit_card (fun _ => none) (.ok (.obj [("calls", .arr [.num 5])]))
      = (500, errorBody "Internal server error") ∧
    (encrypt_credit_card (fun _ => none)
        (.ok (.obj [("calls", .arr [.num 5])]))).1 ≠ 200 :=
  ⟨rfl, by decide⟩

/-- C1, witness: a concrete envelope with one single-element call. -/
theorem c1_batch_length_order_witness :
    encrypt_credit_card encStubOracle
        (.ok (.obj [("requestId", .str "124ab1c"),
                    ("calls", .arr [.arr [.str "42"]])]))
      = (200, Json.obj [("replies", .arr [.str "ENC(42)"])]) :=
  (c1_batch_length_order encStubOracle
    [("requestId", .str "124ab1c"), ("calls", .arr [.arr [.str "42"]])]
    [.arr [.str "42"]] rfl
    (by intro c hc
        rw [List.mem_singleton] at hc
        exact ⟨[.str "42"], hc⟩)).1

/-- C2: when the Vault backend answers a non-200 response for the item at
position `k` of a batch of non-empty strings, the whole batch response still
has status 200, the reply at position `k` is `null`, and the reply at every
position `i` is exactly the client's own result for call `i`. -/
theorem c2_single_failure_isolated (backend : String → VaultOutcome)
    (ss : List String) (k : Nat) (hk : k < ss.length)
    (hss : ∀ s ∈ ss, s ≠ "") (r : VaultResponse)
    (hfail : backend (ss.getD k "") = .resp r) (hst : r.status ≠ 200) :
    encrypt_credit_card (VaultTransformClient.encrypt backend)
        (.ok (mkCallsBody ss))
      = (200, Json.obj [("replies", .arr (ss.map fun s =>
          (VaultTransformClient.encrypt backend s).getD .null))]) ∧
    (ss.map fun s =>
        (VaultTransformClient.encrypt backend s).getD .null).getD k .null
      = .null ∧
    ∀ i, i < ss.length →
      (ss.map fun s =>
          (VaultTransformClient.encrypt backend s).getD .null).getD i .null
        = (VaultTransformClient.encrypt backend (ss.getD i "")).getD .null := by
  refine ⟨?_, ?_, ?_⟩
  · exact handler_on_string_batch (VaultTransformClient.encrypt backend) ss hss
  · rw [getD_map_lt (fun s => (VaultTransformClient.encrypt backend s).getD .null)
        "" .null ss k hk]
    unfold VaultTransformClient.encrypt
    rw [hfail, extract_non200 "encoded_value" r hst]
    rfl
  · intro i hi
    exact getD_map_lt (fun s => (VaultTransformClient.encrypt backend s).getD .null)
      "" .null ss i hi

/-- C2, witness: batch `["A", "B", "C"]` against a backend that fails with
HTTP 500 on `"B"` only: status 200, `null` exactly at position 1, normal
results elsewhere. -/
theorem c2_single_failure_isolated_witness :
    encrypt_credit_card (VaultTransformClient.encrypt oneFailureBackend)
        (.ok (mkCallsBody ["A", "B", "C"]))
      = (200, Json.obj [("replies",
          .arr [.str "EA", .null, .str "EC"])]) :=
  (c2_single_failure_isolated oneFailureBackend ["A", "B", "C"] 1 (by decide)
    (by decide) ⟨500, none⟩ rfl (by decide)).1

/-- C3 (amended): a parsed request body that is falsy, or a JSON object
without a `calls` key, gets 400 with an error object from both handlers; a
body whose `calls` is a list of JSON arrays gets 200 with
`{"replies": [...]}`.  An unparsable body, however, is a 400 only in the
cloud-function variant (which parses with `silent=True`); in the Flask app
`request.get_json()` raises inside the handler's `try` block and the
response is 500, not 400.  (See the counterexample.) -/
theorem c3_validation_statuses :
    (∀ o : String → Option Json,
        encrypt_credit_card o (.error ())
            = (500, errorBody "Internal server error") ∧
        decrypt_credit_card o (.error ())
            = (500, errorBody "Internal server error")) ∧
    (∀ (o : String → Option Json) (rd : Json), truthy rd = false →
        encrypt_credit_card o (.ok rd)
            = (400, errorBody "Invalid request format") ∧
        decrypt_credit_card o (.ok rd)
            = (400, errorBody "Invalid request format")) ∧
    (∀ (o : String → Option Json) (fs : List (String × Json)),
        lookupField fs "calls" = none →
        encrypt_credit_card o (.ok (.obj fs))
            = (400, errorBody "Invalid request format") ∧
        decrypt_credit_card o (.ok (.obj fs))
            = (400, errorBody "Invalid request format")) ∧
    (∀ (o : String → Option Json) (fs : List (String × Json)) (cs : List Json),
        lookupField fs "calls" = some (.arr cs) →
        (∀ c ∈ cs, ∃ xs, c = .arr xs) →
        encrypt_credit_card o (.ok (.obj fs))
            = (200, Json.obj [("replies", .arr (cs.map (replyOf o)))]) ∧
        decrypt_credit_card o (.ok (.obj fs))
            = (200, Json.obj [("replies", .arr (cs.map (replyOf o)))])) ∧
    (∀ o : String → Option Json,
        cfEncryptCreditCard o none = (400, errorBody "Invalid request format") ∧
        cfDecryptCreditCard o none = (400, errorBody "Invalid request format")) := by
  refine ⟨fun o => ⟨rfl, rfl⟩, fun o rd h => ?_, fun o fs h => ?_,
         fun o fs cs h harr => ?_, fun o => ⟨rfl, rfl⟩⟩
  · exact ⟨handleParsed_not_truthy o rd h, handleParsed_not_truthy o rd h⟩
  · exact ⟨handleParsed_no_calls o fs h, handleParsed_no_calls o fs h⟩
  · exact ⟨handleParsed_batch o fs cs h harr, handleParsed_batch o fs cs h harr⟩

/-- C3, counterexample: an unparsable request body (`request.get_json()`
raises) gets a 500 from the Flask `/encrypt` handler, not the 400 the claim
demands. -/
theorem c3_claim_counterexample :
    encrypt_credit_card encStubOracle (.error ())
      = (500, errorBody "Internal server error") ∧
    (encrypt_credit_card encStubOracle (.error ())).1 ≠ 400 :=
  ⟨rfl, by decide⟩

/-- C3, witness: a body lacking `calls` gets 400. -/
theorem c3_validation_statuses_witness :
    encrypt_credit_card encStubOracle (.ok (.obj [("invalid", .str "data")]))
      = (400, errorBody "Invalid request format") :=
  (c3_validation_statuses.2.2.1 encStubOracle [("invalid", .str "data")] rfl).1

/-- C4: on a 200 response whose body parses to an object with
`data.encoded_value` (resp. `data.decoded_value`) present and non-null, the
Transform client returns that value; a missing field, a missing `data`
object, a non-200 status, a body on which `response.json()` raises, or a
raised network exception all return the failure marker `None` — the client
is a total function and never propagates an exception to the caller. -/
theorem c4_client_extraction :
    (∀ (backend : String → VaultOutcome) (p : String)
        (fs ds : List (String × Json)) (v : Json),
        backend p = .resp ⟨200, some (.obj fs)⟩ →
        lookupField fs "data" = some (.obj ds) →
        lookupField ds "encoded_value" = some v → v ≠ .null →
        VaultTransformClient.encrypt backend p = some v) ∧
    (∀ (backend : String → VaultOutcome) (p : String)
        (fs ds : List (String × Json)),
        backend p = .resp ⟨200, some (.obj fs)⟩ →
        lookupField fs "data" = some (.obj ds) →
        lookupField ds "encoded_value" = none →
        VaultTransformClient.encrypt backend p = none) ∧
    (∀ (backend : String → VaultOutcome) (p : String)
        (fs : List (String × Json)),
        backend p = .resp ⟨200, some (.obj fs)⟩ →
        lookupField fs "data" = none →
        VaultTransformClient.encrypt backend p = none) ∧
    (∀ (backend : String → VaultOutcome) (p : String) (r : VaultResponse),
        backend p = .resp r → r.status ≠ 200 →
        VaultTransformClient.encrypt backend p = none) ∧
    (∀ (backend : String → VaultOutcome) (p : String),
        backend p = .resp ⟨200, none⟩ →
        VaultTransformClient.encrypt backend p = none) ∧
    (∀ (backend : String → VaultOutcome) (p : String),
        backend p = .exn → VaultTransformClient.encrypt backend p = none) ∧
    (∀ (backend : String → VaultOutcome) (c : String)
        (fs ds : List (String × Json)) (v : Json),
        backend c = .resp ⟨200, some (.obj fs)⟩ →
        lookupField fs "data" = some (.obj ds) →
        lookupField ds "decoded_value" = some v → v ≠ .null →
        VaultTransformClient.decrypt backend c = some v) ∧
    (∀ (backend : String → VaultOutcome) (c : String)
        (fs ds : List (String × Json)),
        backend c = .resp ⟨200, some (.obj fs)⟩ →
        lookupField fs "data" = some (.obj ds) →
        lookupField ds "decoded_value" = none →
        VaultTransformClient.decrypt backend c = none) ∧
    (∀ (backend : String → VaultOutcome) (c : String)
        (fs : List (String × Json)),
        backend c = .resp ⟨200, some (.obj fs)⟩ →
        lookupField fs "data" = none →
        VaultTransformClient.decrypt backend c = none) ∧
    (∀ (backend : String → VaultOutcome) (c : String) (r : VaultResponse),
        backend c = .resp r → r.status ≠ 200 →
        VaultTransformClient.decrypt backend c = none) ∧
    (∀ (backend : String → VaultOutcome) (c : String),
        backend c = .resp ⟨200, none⟩ →
        VaultTransformClient.decrypt backend c = none) ∧
    (∀ (backend : String → VaultOutcome) (c : String),
        backend c = .exn → VaultTransformClient.decrypt backend c = none) := by
  refine ⟨?_, ?_, ?_, ?_, ?_, ?_, ?_, ?_, ?_, ?_, ?_, ?_⟩
  · intro b p fs ds v hb h1 h2 h3
    unfold VaultTransformClient.encrypt
    rw [hb]
    exact extract_200_ok _ fs ds v h1 h2 h3
  · intro b p fs ds hb h1 h2
    unfold VaultTransformClient.encrypt
    rw [hb]
    exact extract_200_missing_field _ fs ds h1 h2
  · intro b p fs hb h1
    unfold VaultTransformClient.encrypt
    rw [hb]
    exact extract_200_missing_data _ fs h1
  · intro b p r hb hr
    unfold VaultTransformClient.encrypt
    rw [hb]
    exact extract_non200 _ r hr
  · intro b p hb
    unfold VaultTransformClient.encrypt
    rw [hb]
    rfl
  · intro b p hb
    unfold VaultTransformClient.encrypt
    rw [hb]
    rfl
  · intro b c fs ds v hb h1 h2 h3
    unfold VaultTransformClient.decrypt
    rw [hb]
    exact extract_200_ok _ fs ds v h1 h2 h3
  · intro b c fs ds hb h1 h2
    unfold VaultTransformClient.decrypt
    rw [hb]
    exact extract_200_missing_field _ fs ds h1 h2
  · intro b c fs hb h1
    unfold VaultTransformClient.decrypt
    rw [hb]
    exact extract_200_missing_data _ fs h1
  · intro b c r hb hr
    unfold VaultTransformClient.decrypt
    rw [hb]
    exact extract_non200 _ r hr
  · intro b c hb
    unfold VaultTransformClient.decrypt
    rw [hb]
    rfl
  · intro b c hb
    unfold VaultTransformClient.decrypt
    rw [hb]
    rfl

/-- C4, witness: a successful extraction and a non-200 failure at concrete
responses. -/
theorem c4_client_extraction_witness :
    VaultTransformClient.encrypt
        (fun _ => .resp ⟨200, some (.obj
            [("data", .obj [("encoded_value", .str "tok-91")])])⟩) "4111"
      = some (.str "tok-91") ∧
    VaultTransformClient.decrypt (fun _ => .resp ⟨403, none⟩) "tok-91"
      = none ∧
    VaultTransformClient.encrypt (fun _ => .exn) "4111" = none :=
  ⟨c4_client_extraction.1
      (fun _ => .resp ⟨200, some (.obj
          [("data", .obj [("encoded_value", .str "tok-91")])])⟩)
      "4111" [("data", .obj [("encoded_value", .str "tok-91")])]
      [("encoded_value", .str "tok-91")] (.str "tok-91") rfl rfl rfl (by simp),
   c4_client_extraction.2.2.2.2.2.2.2.2.2.1
      (fun _ => .resp ⟨403, none⟩) "tok-91" ⟨403, none⟩ rfl (by decide),
   c4_client_extraction.2.2.2.2.2.1 (fun _ => .exn) "4111" rfl⟩

/-- C5: against stub backends realising a deterministic bijection over
strings (decode inverting encode, both always answering 200), encrypting a
non-empty string and then decrypting the result gives the string back. -/
theorem c5_round_trip (enc dec : String → String)
    (hinv : ∀ s, dec (enc s) = s) (x : String) (_hx : x ≠ "") :
    VaultTransformClient.encrypt (stubEncodeBackend enc) x
        = some (.str (enc x)) ∧
    VaultTransformClient.decrypt (stubDecodeBackend dec) (enc x)
        = some (.str x) := by
  constructor
  · exact extract_200_ok "encoded_value"
      [("data", .obj [("encoded_value", .str (enc x))])]
      [("encoded_value", .str (enc x))] (.str (enc x)) rfl rfl (by simp)
  · show extractTransformField "decoded_value"
        (.resp ⟨200, some (.obj
            [("data", .obj [("decoded_value", .str (dec (enc x)))])])⟩)
      = some (.str x)
    rw [hinv x]
    exact extract_200_ok "decoded_value"
      [("data", .obj [("decoded_value", .str x)])]
      [("decoded_value", .str x)] (.str x) rfl rfl (by simp)

/-- C5, witness: the identity bijection at `"4111"`. -/
theorem c5_round_trip_witness :
    VaultTransformClient.encrypt (stubEncodeBackend id) "4111"
        = some (.str "4111") ∧
    VaultTransformClient.decrypt (stubDecodeBackend id) "4111"
        = some (.str "4111") :=
  c5_round_trip id id (fun _ => rfl) "4111" (by decide)

/-- C6: a falsy call entry (in particular an empty list), or a non-empty
entry whose first element is falsy, yields `ok null` from the loop body for
every oracle — so no Vault call can influence it and neighbouring items are
untouched; and the spec's worked example evaluates exactly as stated. -/
theorem c6_absent_marker :
    (∀ (o : String → Option Json) (c : Json), truthy c = false →
        itemReply o c = .ok .null) ∧
    (∀ (o : String → Option Json) (v : Json) (rest : List Json),
        truthy v = false → itemReply o (.arr (v :: rest)) = .ok .null) ∧
    encrypt_credit_card encStubOracle
        (.ok (.obj [("calls", .arr [.arr [.str "4111111111111111"], .arr [],
                                    .arr [.str "4222222222222222"]])]))
      = (200, Json.obj [("replies", .arr [.str "ENC(4111111111111111)", .null,
                                          .str "ENC(4222222222222222)"])]) := by
  refine ⟨fun o c h => ?_, fun o v rest h => ?_, rfl⟩
  · simp [itemReply, h]
  · simp [itemReply, truthy_arr_cons, pyLen, pyIndexZero, h]

/-- C6, witness: the empty call entry yields `null` under the stub oracle. -/
theorem c6_absent_marker_witness :
    itemReply encStubOracle (.arr []) = .ok .null :=
  c6_absent_marker.1 encStubOracle (.arr []) rfl

/-- C7: startup fails with `ValueError` exactly when `VAULT_TOKEN` is unset
or empty (so the module-level client construction aborts before any route
exists); with a non-empty token, construction succeeds whatever the rest of
the environment holds — no network call is made — and if Vault later becomes
unreachable (every call raises), a batch still completes with 200 and
per-item `null` replies instead of crashing. -/
theorem c7_startup_token :
    (∀ env : PyEnv, env.get "VAULT_TOKEN" = none →
        VaultTransformClient.init env
          = .error "VAULT_TOKEN environment variable is required") ∧
    (∀ env : PyEnv, env.get "VAULT_TOKEN" = some "" →
        VaultTransformClient.init env
          = .error "VAULT_TOKEN environment variable is required") ∧
    (∀ (env : PyEnv) (t : String), env.get "VAULT_TOKEN" = some t → t ≠ "" →
        VaultTransformClient.init env = .ok
          { vault_url := (env.get "VAULT_URL").getD "https://vault.example.com"
            vault_token := t
            vault_namespace := (env.get "VAULT_NAMESPACE").getD ""
            transform_role :=
              (env.get "VAULT_TRANSFORM_ROLE").getD "creditcard-transform" }) ∧
    (∀ ss : List String, (∀ s ∈ ss, s ≠ "") →
        encrypt_credit_card (VaultTransformClient.encrypt fun _ => .exn)
            (.ok (mkCallsBody ss))
          = (200, Json.obj [("replies", .arr (ss.map fun _ => Json.null))]) ∧
        decrypt_credit_card (VaultTransformClient.decrypt fun _ => .exn)
            (.ok (mkCallsBody ss))
          = (200, Json.obj [("replies", .arr (ss.map fun _ => Json.null))])) := by
  refine ⟨fun env h => ?_, fun env h => ?_, fun env t h ht => ?_,
         fun ss hss => ⟨?_, ?_⟩⟩
  · simp [VaultTransformClient.init, h]
  · simp [VaultTransformClient.init, h]
  · simp [VaultTransformClient.init, h, ht]
  · exact handler_on_string_batch (VaultTransformClient.encrypt fun _ => .exn) ss hss
  · exact handler_on_string_batch (VaultTransformClient.decrypt fun _ => .exn) ss hss

/-- C7, witness: an environment holding only a token succeeds with the
default configuration; the empty environment fails; and an unreachable Vault
degrades a concrete batch to nulls. -/
theorem c7_startup_token_witness :
    VaultTransformClient.init envTokenOnly
      = .ok { vault_url := "https://vault.example.com"
              vault_token := "s.abc123"
              vault_namespace := ""
              transform_role := "creditcard-transform" } ∧
    VaultTransformClient.init envEmpty
      = .error "VAULT_TOKEN environment variable is required" ∧
    encrypt_credit_card (VaultTransformClient.encrypt fun _ => .exn)
        (.ok (mkCallsBody ["4111", "4222"]))
      = (200, Json.obj [("replies", .arr [.null, .null])]) :=
  ⟨c7_startup_token.2.2.1 envTokenOnly "s.abc123" rfl (by decide),
   c7_startup_token.1 envEmpty rfl,
   (c7_startup_token.2.2.2 ["4111", "4222"] (by decide)).1⟩

/-- C8: two parsed request bodies with the same `calls` value produce
identical responses from both handlers, whatever the other envelope fields
(`requestId`, `caller`, `sessionUser`, or extras) hold: only `calls` is
consumed. -/
theorem c8_envelope_ignored (o : String → Option Json)
    (f1 f2 : List (String × Json)) (c : Json)
    (h1 : lookupField f1 "calls" = some c)
    (h2 : lookupField f2 "calls" = some c) :
    encrypt_credit_card o (.ok (.obj f1)) = encrypt_credit_card o (.ok (.obj f2)) ∧
    decrypt_credit_card o (.ok (.obj f1)) = decrypt_credit_card o (.ok (.obj f2)) := by
  have h : handleParsed o (.obj f1) = handleParsed o (.obj f2) := by
    rw [handleParsed_obj_calls o f1 c h1, handleParsed_obj_calls o f2 c h2]
  exact ⟨h, h⟩

/-- C8, witness: the documented envelope versus a stripped body with extra
keys, same `calls`. -/
theorem c8_envelope_ignored_witness :
    encrypt_credit_card encStubOracle
        (.ok (.obj [("requestId", .str "124ab1c"),
                    ("caller", .str "//bigquery.googleapis.com/jobs/j"),
                    ("sessionUser", .str "test-user@test-company.com"),
                    ("calls", .arr [.arr [.str "42"]])]))
      = encrypt_credit_card encStubOracle
          (.ok (.obj [("calls", .arr [.arr [.str "42"]]),
                      ("extra", .num 7)])) :=
  (c8_envelope_ignored encStubOracle
    [("requestId", .str "124ab1c"),
     ("caller", .str "//bigquery.googleapis.com/jobs/j"),
     ("sessionUser", .str "test-user@test-company.com"),
     ("calls", .arr [.arr [.str "42"]])]
    [("calls", .arr [.arr [.str "42"]]), ("extra", .num 7)]
    (.arr [.arr [.str "42"]]) rfl rfl).1

/-- C9: a truthy first element of a call entry reaches the oracle as its
Python `str()` rendering, whatever JSON type it has; in particular the
number `4111111111111111` is relayed as `"4111111111111111"` and the boolean
`true` as `"True"`, not rejected. -/
theorem c9_str_coercion :
    (∀ (o : String → Option Json) (v : Json) (rest : List Json),
        truthy v = true →
        itemReply o (.arr (v :: rest)) = .ok ((o (pyStr v)).getD .null)) ∧
    pyStr (.num 4111111111111111) = "4111111111111111" ∧
    pyStr (.bool true) = "True" := by
  refine ⟨fun o v rest h => ?_, rfl, rfl⟩
  simp [itemReply, truthy_arr_cons, pyLen, pyIndexZero, h]

/-- C9, witness: a numeric credit-card value is encrypted via its decimal
rendering. -/
theorem c9_str_coercion_witness :
    itemReply encStubOracle (.arr [.num 4111111111111111])
      = .ok (.str "ENC(4111111111111111)") :=
  c9_str_coercion.1 encStubOracle (.num 4111111111111111) [] (by decide)

/-- C10: the Cloud Function entry point routes by substring match on the
path, testing `/encrypt`, then `/decrypt`, then `/health`; a path matching
none of the three is handled as an encrypt request, never rejected. -/
theorem c10_cf_routing (oe od : String → Option Json) (path : String)
    (body : Option Json) :
    (strContains path "/encrypt" = true →
        vault_transform_bigquery oe od path body = cfEncryptCreditCard oe body) ∧
    (strContains path "/encrypt" = false → strContains path "/decrypt" = true →
        vault_transform_bigquery oe od path body = cfDecryptCreditCard od body) ∧
    (strContains path "/encrypt" = false → strContains path "/decrypt" = false →
        strContains path "/health" = true →
        vault_transform_bigquery oe od path body = cfHealthCheck) ∧
    (strContains path "/encrypt" = false → strContains path "/decrypt" = false →
        strContains path "/health" = false →
        vault_transform_bigquery oe od path body = cfEncryptCreditCard oe body) := by
  refine ⟨fun h1 => ?_, fun h1 h2 => ?_, fun h1 h2 h3 => ?_, fun h1 h2 h3 => ?_⟩ <;>
    simp [vault_transform_bigquery, h1]
  · simp [h2]
  · simp [h2, h3]
  · simp [h2, h3]

/-- C10, witness: the bare path `/` contains none of the three markers and
is served as an encrypt request. -/
theorem c10_cf_routing_witness :
    vault_transform_bigquery encStubOracle encStubOracle "/"
        (some (mkCallsBody ["42"]))
      = cfEncryptCreditCard encStubOracle (some (mkCallsBody ["42"])) :=
  (c10_cf_routing encStubOracle encStubOracle "/"
    (some (mkCallsBody ["42"]))).2.2.2 rfl rfl rfl

end VaultTransform
